import Mathlib

/-!
Shallow embedding of the BotCareU ESP32 firmware core
(src/firmware/src/main.cpp), covering the measurement pipeline
(`takeMeasurement`), the fever-alert classifier (`checkFeverAlert`), the
telemetry publishers (`publishTemperatureData`, `publishDeviceStatus`), the
broker reconnection procedure (`connectToMQTT`), the connectivity phase of
the scheduler `loop`, sensor initialization (`setupSensors`) and the
inbound-command dispatch (`handleCommand`).

Temperatures are modelled as rationals; the machine-external world (sensor
readings, network/broker attempt outcomes, the epoch clock) is passed in
explicitly.  A call to `mqttClient.publish` / `mqttClient.subscribe` is
modelled as emitting a `Msg` value: the list of emitted `Msg`s is the
sequence of transport calls the firmware makes, in order.  Serial logging,
LED/buzzer output and the display renderer have no effect on this state and
are elided, except for the fever/normal text of `updateDisplay`, modelled by
`displayFeverText`.
-/

namespace BotCareU

/-- Temperature threshold (main.cpp line 61): `#define FEVER_THRESHOLD 37.5`.
Written in reduced-fraction constructor form (75/2 = 37.5) so that concrete
instances evaluate by kernel reduction; `FEVER_THRESHOLD_eq` below restates
it as the decimal literal. -/
def FEVER_THRESHOLD : ℚ := Rat.mk' 75 2 (by norm_num) (by norm_num)

/-- Threshold for "high" severity (main.cpp line 62): `#define HIGH_FEVER_THRESHOLD 39.0`. -/
def HIGH_FEVER_THRESHOLD : ℚ := 39

/-- Delay in ms between broker connection attempts (main.cpp line 70):
`#define MQTT_RECONNECT_DELAY 5000`. -/
def MQTT_RECONNECT_DELAY : ℕ := 5000

/-- Model of `struct TemperatureReading` (main.cpp lines 84-91). -/
structure TemperatureReading where
  infraredTemp : ℚ
  contactTemp : ℚ
  ambientTemp : ℚ
  timestamp : ℕ
  isValid : Bool
  measurementType : String
  deriving Repr, DecidableEq

/-- The mutable globals of main.cpp that the claims touch:
`lastReading` (line 103), `WiFi.status() == WL_CONNECTED` as `wifiUp`,
`mqttClient.connected()` as `mqttConnected` (the `deviceStatus.wifiConnected`
/ `deviceStatus.mqttConnected` fields mirror these two),
`deviceStatus.sensorsReady`, `measurementInProgress` (line 108) and
`deviceId` (line 109). -/
structure DeviceState where
  lastReading : TemperatureReading
  wifiUp : Bool
  mqttConnected : Bool
  sensorsReady : Bool
  measurementInProgress : Bool
  deviceId : String
  deriving Repr, DecidableEq

/-- Sensor and clock values an invocation of `takeMeasurement` observes:
`mlx.readObjectTempC()`, `mlx.readAmbientTempC()`,
`ds18b20.getTempCByIndex(0)` and `timeClient.getEpochTime()`. -/
structure SensorInput where
  infraredTemp : ℚ
  ambientTemp : ℚ
  contactTemp : ℚ
  epochTime : ℕ
  deriving Repr, DecidableEq

/-- Payloads of the outbound MQTT messages.  The metadata fields that are
serialized verbatim from environment reads (battery level, RSSI, firmware
version, uptime, free heap) carry no logic and are elided. -/
inductive Payload where
  | reading (deviceId : String) (r : TemperatureReading)
  | status (deviceId : String) (statusStr : String)
  | alert (deviceId : String) (alertType : String) (temperature : ℚ)
      (severity : String) (timestamp : ℕ)
  deriving Repr, DecidableEq

/-- A transport call: `mqttClient.subscribe(topic)` or
`mqttClient.publish(topic, payload)`. -/
inductive Msg where
  | subscribe (topic : String)
  | publish (topic : String) (payload : Payload)
  deriving Repr, DecidableEq

/-- Topic built at main.cpp line 334. -/
def configTopic (devId : String) : String :=
  "botcareu/device/" ++ devId ++ "/config"

/-- Topic built at main.cpp line 335. -/
def commandTopic (devId : String) : String :=
  "botcareu/device/" ++ devId ++ "/commands"

/-- Topic built at main.cpp line 426. -/
def readingTopic (devId : String) : String :=
  "botcareu/device/" ++ devId ++ "/temperature/reading"

/-- Topic built at main.cpp line 445. -/
def statusTopic (devId : String) : String :=
  "botcareu/device/" ++ devId ++ "/status"

/-- Topic built at main.cpp line 539. -/
def alertsTopic (devId : String) : String :=
  "botcareu/device/" ++ devId ++ "/alerts"

/-- Model of `checkFeverAlert` (main.cpp lines 519-542).  When
`temperature >= FEVER_THRESHOLD` it publishes an alert whose severity is
`temperature >= HIGH_FEVER_THRESHOLD ? "high" : "moderate"`.  Note that this
function calls `mqttClient.publish` directly, with no
`if (!mqttClient.connected()) return;` guard, unlike the other two
publishers.  The buzzer pulses (`playAlert`) are elided. -/
def checkFeverAlert (devId : String) (epochTime : ℕ) (temperature : ℚ) :
    List Msg :=
  if temperature ≥ FEVER_THRESHOLD then
    [Msg.publish (alertsTopic devId)
      (Payload.alert devId "fever_detected" temperature
        (if temperature ≥ HIGH_FEVER_THRESHOLD then "high" else "moderate")
        epochTime)]
  else []

/-- Model of `publishTemperatureData` (main.cpp lines 405-428): returns immediately
when the client is not connected, otherwise publishes the reading payload on
the `temperature/reading` topic. -/
def publishTemperatureData (s : DeviceState) (reading : TemperatureReading) :
    List Msg :=
  if s.mqttConnected = false then []
  else [Msg.publish (readingTopic s.deviceId)
          (Payload.reading s.deviceId reading)]

/-- Model of `publishDeviceStatus` (main.cpp lines 430-447): returns immediately when
the client is not connected, otherwise publishes the status payload with
`status = deviceStatus.sensorsReady ? "online" : "error"`. -/
def publishDeviceStatus (s : DeviceState) : List Msg :=
  if s.mqttConnected = false then []
  else [Msg.publish (statusTopic s.deviceId)
          (Payload.status s.deviceId
            (if s.sensorsReady then "online" else "error"))]

/-- Initialization of the local `TemperatureReading reading` in
`takeMeasurement` (main.cpp lines 358-369): timestamp from the NTP clock,
`isValid = true`, `measurementType = "combined"`, and the three sensor
channels copied in. -/
def rawReading (inp : SensorInput) : TemperatureReading :=
  { infraredTemp := inp.infraredTemp
    contactTemp := inp.contactTemp
    ambientTemp := inp.ambientTemp
    timestamp := inp.epochTime
    isValid := true
    measurementType := "combined" }

/-- Validation step of `takeMeasurement` (main.cpp lines 371-379): the
reading is invalidated iff `infraredTemp < 20 || infraredTemp > 50`; the
contact-range check at lines 377-379 only logs and has no effect on
state. -/
def validateReading (r : TemperatureReading) : TemperatureReading :=
  if r.infraredTemp < 20 ∨ r.infraredTemp > 50 then { r with isValid := false }
  else r

/-- Selection step of `takeMeasurement` (main.cpp lines 381-386): the type
becomes `"contact"` iff `contactTemp > 20 && contactTemp < 50`, else
`"infrared"` iff `infraredTemp > 20 && infraredTemp < 50`, else stays
`"combined"`. -/
def selectType (r : TemperatureReading) : TemperatureReading :=
  if r.contactTemp > 20 ∧ r.contactTemp < 50 then
    { r with measurementType := "contact" }
  else if r.infraredTemp > 20 ∧ r.infraredTemp < 50 then
    { r with measurementType := "infrared" }
  else r

/-- The reading as it stands after the three construction phases of
`takeMeasurement` (main.cpp lines 358-386). -/
def buildReading (inp : SensorInput) : TemperatureReading :=
  selectType (validateReading (rawReading inp))

/-- The "primary temperature" expression of main.cpp line 392 (and again
lines 469-470): the contact channel when the type is `"contact"`, else the
infrared channel. -/
def primaryTemp (r : TemperatureReading) : ℚ :=
  if r.measurementType = "contact" then r.contactTemp else r.infraredTemp

/-- Model of `takeMeasurement` (main.cpp lines 352-403).  Returns the new global
state and the transport calls made.  `measurementInProgress` is set on entry
and cleared before returning, so on the non-guarded path the returned flag
equals the incoming one (false); when the guard fires the call is a pure
no-op.  On a valid reading, `lastReading` is replaced, `checkFeverAlert` runs
on the primary temperature and then `publishTemperatureData` runs; on an
invalid reading nothing is stored and nothing is published. -/
def takeMeasurement (s : DeviceState) (inp : SensorInput) :
    DeviceState × List Msg :=
  if s.measurementInProgress then (s, [])
  else
    let reading := buildReading inp
    if reading.isValid then
      let s1 := { s with lastReading := reading }
      (s1, checkFeverAlert s1.deviceId inp.epochTime (primaryTemp reading)
            ++ publishTemperatureData s1 reading)
    else (s, [])

/-- Accounting device for the sleep time of the reconnection loop: a
result reached after a further failed attempt carries `d0` extra ms of
delay. -/
def addDelay (d0 : ℕ) :
    Option (DeviceState × List Msg × ℕ) → Option (DeviceState × List Msg × ℕ)
  | none => none
  | some (s2, msgs, d) => some (s2, msgs, d0 + d)

/-- Model of `connectToMQTT` (main.cpp lines 325-350): a `while (!mqttClient.connected())`
loop.  Each iteration attempts `mqttClient.connect`; the oracle list
`outcomes` supplies the attempt results.  On success the client becomes
connected, the two per-device topics are subscribed and `publishDeviceStatus`
runs; on failure `deviceStatus.mqttConnected` is (re-)set to false (no model
state change, it is already false) and the loop sleeps
`MQTT_RECONNECT_DELAY` ms before the next attempt.  The result carries the
final state, the transport calls and the total ms slept; `none` means the
oracle was exhausted without a successful attempt, i.e. the loop is still
running after `outcomes.length` failed attempts. -/
def connectToMQTT (s : DeviceState) : List Bool → Option (DeviceState × List Msg × ℕ)
  | [] => if s.mqttConnected then some (s, [], 0) else none
  | ok :: rest =>
    if s.mqttConnected then some (s, [], 0)
    else if ok then
      some ({ s with mqttConnected := true },
        [Msg.subscribe (configTopic s.deviceId),
         Msg.subscribe (commandTopic s.deviceId)]
          ++ publishDeviceStatus { s with mqttConnected := true },
        0)
    else addDelay MQTT_RECONNECT_DELAY (connectToMQTT s rest)

/-- Observable connection attempts made by one iteration of `loop`. -/
inductive TickEvent where
  | wifiReconnectAttempt
  | brokerConnectAttempt
  deriving Repr, DecidableEq

/-- The connectivity phase at the top of `loop` (main.cpp lines 201-210):
`if (WiFi.status() != WL_CONNECTED) connectToWiFi();` then
`if (!mqttClient.connected()) connectToMQTT();`.  `wifiOutcome` is whether
the `WiFi.reconnect()` inside `connectToWiFi` brings the link up.  Note the
broker-connection condition tests only `mqttClient.connected()`; it does not
consult the WiFi link state. -/
def loopConnectivity (s : DeviceState) (wifiOutcome : Bool) :
    DeviceState × List TickEvent :=
  let step1 :=
    if s.wifiUp = false then
      ({ s with wifiUp := wifiOutcome }, [TickEvent.wifiReconnectAttempt])
    else (s, [])
  let ev2 :=
    if step1.1.mqttConnected = false then [TickEvent.brokerConnectAttempt]
    else []
  (step1.1, step1.2 ++ ev2)

/-- Model of `setupSensors` (main.cpp lines 265-288): a failed `mlx.begin()` sets
`deviceStatus.sensorsReady = false`; the DS18B20 branch only logs and sets
the probe resolution; then line 286 unconditionally executes
`deviceStatus.sensorsReady = true;`. -/
def setupSensors (s : DeviceState) (mlxBeginOk : Bool) (_deviceCount : ℕ) :
    DeviceState :=
  let s1 := if mlxBeginOk = false then { s with sensorsReady := false } else s
  { s1 with sensorsReady := true }

/-- The `commands`-topic branch of `handleMQTTMessage` (main.cpp lines
508-516): `measure_now` calls `takeMeasurement`; `restart` calls
`ESP.restart()` (modelled by the Bool flag of the result); any other command
is ignored. -/
def handleCommand (s : DeviceState) (inp : SensorInput) (command : String) :
    DeviceState × List Msg × Bool :=
  if command = "measure_now" then
    let r := takeMeasurement s inp
    (r.1, r.2, false)
  else if command = "restart" then (s, [], true)
  else (s, [], false)

/-- The fever/normal text drawn by `updateDisplay` (main.cpp lines 468-484)
for a given last reading. -/
def displayFeverText (r : TemperatureReading) : String :=
  if r.isValid then
    if primaryTemp r ≥ FEVER_THRESHOLD then "FEVER DETECTED!" else "Normal"
  else "No readings"

/-- Whether a transport call is a publish of an alert payload. -/
def isAlertMsg : Msg → Bool
  | Msg.publish _ (Payload.alert _ _ _ _ _) => true
  | _ => false

/-- Holds unless the call publishes a reading payload whose `isValid` flag is
false. -/
def readingPayloadValid : Msg → Bool
  | Msg.publish _ (Payload.reading _ r) => r.isValid
  | _ => true

/-- Holds unless the call publishes a status payload whose status string is
not "online". -/
def statusOnline : Msg → Bool
  | Msg.publish _ (Payload.status _ st) => st == "online"
  | _ => true

/-- Transport calls of a (possibly still-running) `connectToMQTT` run. -/
def msgsOf : Option (DeviceState × List Msg × ℕ) → List Msg
  | none => []
  | some (_, msgs, _) => msgs

/-- A zeroed reading: the content of `lastReading` before any measurement. -/
def zeroReading : TemperatureReading :=
  { infraredTemp := 0, contactTemp := 0, ambientTemp := 0, timestamp := 0,
    isValid := false, measurementType := "combined" }

/-- A fully-connected device state used as a base for concrete scenarios. -/
def baseState : DeviceState :=
  { lastReading := zeroReading, wifiUp := true, mqttConnected := true,
    sensorsReady := true, measurementInProgress := false, deviceId := "DEV" }

/-- Sensor input of spec §8: infrared 38.2 °C, contact 12 °C (out of range). -/
def w1Input : SensorInput :=
  { infraredTemp := Rat.mk' 191 5 (by norm_num) (by norm_num),
    ambientTemp := 25, contactTemp := 12, epochTime := 100 }

/-- Sensor input with the contact channel exactly at the 20 °C boundary and
the infrared channel at 36.8 °C. -/
def c3Input : SensorInput :=
  { infraredTemp := Rat.mk' 184 5 (by norm_num) (by norm_num),
    ambientTemp := 25, contactTemp := 20, epochTime := 3 }

/-- Sensor input with an out-of-range infrared channel (60 °C) and an
in-range contact channel (36.9 °C). -/
def c4Input : SensorInput :=
  { infraredTemp := 60, ambientTemp := 25,
    contactTemp := Rat.mk' 369 10 (by norm_num) (by norm_num), epochTime := 7 }

/-- A state whose broker session is disconnected. -/
def c5State : DeviceState := { baseState with mqttConnected := false }

/-- Sensor input with a high-fever infrared reading (39.5 °C) and an
out-of-range contact channel. -/
def c5Input : SensorInput :=
  { infraredTemp := Rat.mk' 79 2 (by norm_num) (by norm_num),
    ambientTemp := 25, contactTemp := 10, epochTime := 1000 }

/-- A state with the network link down and the broker session disconnected. -/
def c7State : DeviceState :=
  { baseState with wifiUp := false, mqttConnected := false }

/-- A state in which a measurement is already in progress. -/
def w9State : DeviceState := { baseState with measurementInProgress := true }

/-- An arbitrary in-range sensor input. -/
def w9Input : SensorInput :=
  { infraredTemp := Rat.mk' 184 5 (by norm_num) (by norm_num),
    ambientTemp := 25,
    contactTemp := Rat.mk' 369 10 (by norm_num) (by norm_num), epochTime := 42 }

/-! Helper lemmas characterizing the definitions above. -/

/-- The fever threshold constant written as a decimal literal. -/
theorem FEVER_THRESHOLD_eq : FEVER_THRESHOLD = 37.5 := by
  rw [FEVER_THRESHOLD, Rat.mk'_eq_divInt, Rat.divInt_eq_div]
  norm_num

/-- Selection does not change the validity flag. -/
theorem selectType_isValid (r : TemperatureReading) :
    (selectType r).isValid = r.isValid := by
  unfold selectType
  split_ifs <;> rfl

/-- Selection only writes the measurement-type field. -/
theorem selectType_fields (r : TemperatureReading) :
    (selectType r).infraredTemp = r.infraredTemp ∧
    (selectType r).contactTemp = r.contactTemp ∧
    (selectType r).ambientTemp = r.ambientTemp ∧
    (selectType r).timestamp = r.timestamp := by
  unfold selectType
  split_ifs <;> exact ⟨rfl, rfl, rfl, rfl⟩

/-- Validation only writes the validity flag. -/
theorem validateReading_fields (r : TemperatureReading) :
    (validateReading r).infraredTemp = r.infraredTemp ∧
    (validateReading r).contactTemp = r.contactTemp ∧
    (validateReading r).ambientTemp = r.ambientTemp ∧
    (validateReading r).timestamp = r.timestamp ∧
    (validateReading r).measurementType = r.measurementType := by
  unfold validateReading
  split_ifs <;> exact ⟨rfl, rfl, rfl, rfl, rfl⟩

/-- Neither the validation nor the selection step alters the sensor-channel
and timestamp fields. -/
theorem buildReading_fields (inp : SensorInput) :
    (buildReading inp).infraredTemp = inp.infraredTemp ∧
    (buildReading inp).contactTemp = inp.contactTemp ∧
    (buildReading inp).ambientTemp = inp.ambientTemp ∧
    (buildReading inp).timestamp = inp.epochTime := by
  have hs := selectType_fields (validateReading (rawReading inp))
  have hv := validateReading_fields (rawReading inp)
  unfold buildReading
  rw [hs.1, hs.2.1, hs.2.2.1, hs.2.2.2, hv.1, hv.2.1, hv.2.2.1, hv.2.2.2.1]
  exact ⟨rfl, rfl, rfl, rfl⟩

/-- The overall validity flag is derived from the infrared channel only. -/
theorem buildReading_isValid (inp : SensorInput) :
    (buildReading inp).isValid = true ↔
      20 ≤ inp.infraredTemp ∧ inp.infraredTemp ≤ 50 := by
  rw [buildReading, selectType_isValid]
  by_cases h1 : inp.infraredTemp < 20 ∨ inp.infraredTemp > 50
  · have hne : ¬(20 ≤ inp.infraredTemp ∧ inp.infraredTemp ≤ 50) := by
      rintro ⟨ha, hb⟩
      rcases h1 with h | h <;> linarith
    simp [validateReading, rawReading, h1, hne]
  · have hle := h1
    push_neg at hle
    simp [validateReading, rawReading, h1, hle.1, hle.2]

/-- Selection precedence of the measurement type over a generic reading. -/
theorem selectType_type (r : TemperatureReading) :
    (selectType r).measurementType =
      (if 20 < r.contactTemp ∧ r.contactTemp < 50 then "contact"
       else if 20 < r.infraredTemp ∧ r.infraredTemp < 50 then "infrared"
       else r.measurementType) := by
  unfold selectType
  split_ifs <;> simp_all

/-- Selection precedence of the measurement type: the contact channel wins
when strictly inside (20, 50), else the infrared channel when strictly
inside (20, 50), else the reading stays combined. -/
theorem buildReading_type (inp : SensorInput) :
    (buildReading inp).measurementType =
      (if 20 < inp.contactTemp ∧ inp.contactTemp < 50 then "contact"
       else if 20 < inp.infraredTemp ∧ inp.infraredTemp < 50 then "infrared"
       else "combined") := by
  have hv := validateReading_fields (rawReading inp)
  rw [buildReading, selectType_type, hv.1, hv.2.1, hv.2.2.2.2]
  simp [rawReading]

/-- The primary temperature follows the same contact-then-infrared
precedence. -/
theorem primaryTemp_buildReading (inp : SensorInput) :
    primaryTemp (buildReading inp) =
      (if 20 < inp.contactTemp ∧ inp.contactTemp < 50 then inp.contactTemp
       else inp.infraredTemp) := by
  unfold primaryTemp
  rw [buildReading_type, (buildReading_fields inp).1,
    (buildReading_fields inp).2.1]
  split_ifs <;> simp_all

/-- Temperatures below the fever threshold produce no transport call. -/
theorem checkFeverAlert_of_lt (devId : String) (ts : ℕ) (t : ℚ)
    (h : t < FEVER_THRESHOLD) : checkFeverAlert devId ts t = [] := by
  simp [checkFeverAlert, not_le.mpr h]

/-- Temperatures at or above the fever threshold produce exactly one alert
publish. -/
theorem checkFeverAlert_of_ge (devId : String) (ts : ℕ) (t : ℚ)
    (h : FEVER_THRESHOLD ≤ t) :
    checkFeverAlert devId ts t =
      [Msg.publish (alertsTopic devId)
        (Payload.alert devId "fever_detected" t
          (if t ≥ HIGH_FEVER_THRESHOLD then "high" else "moderate") ts)] := by
  simp [checkFeverAlert, h]

/-- A call under the reentrancy guard changes nothing and emits nothing. -/
theorem takeMeasurement_inProgress (s : DeviceState) (inp : SensorInput)
    (h : s.measurementInProgress = true) : takeMeasurement s inp = (s, []) := by
  simp [takeMeasurement, h]

/-- A measurement that fails validation changes nothing and emits nothing. -/
theorem takeMeasurement_invalid (s : DeviceState) (inp : SensorInput)
    (hv : (buildReading inp).isValid = false) :
    takeMeasurement s inp = (s, []) := by
  by_cases hp : s.measurementInProgress <;> simp [takeMeasurement, hp, hv]

/-- A valid, unguarded measurement stores the reading and runs the fever
check followed by the reading publish. -/
theorem takeMeasurement_valid (s : DeviceState) (inp : SensorInput)
    (hp : s.measurementInProgress = false)
    (hv : (buildReading inp).isValid = true) :
    takeMeasurement s inp =
      ({ s with lastReading := buildReading inp },
        checkFeverAlert s.deviceId inp.epochTime
            (primaryTemp (buildReading inp))
          ++ publishTemperatureData { s with lastReading := buildReading inp }
              (buildReading inp)) := by
  simp [takeMeasurement, hp, hv]

/-- The delay accounting does not change the emitted transport calls. -/
theorem msgsOf_addDelay (d0 : ℕ) (x : Option (DeviceState × List Msg × ℕ)) :
    msgsOf (addDelay d0 x) = msgsOf x := by
  rcases x with _ | ⟨s2, msgs, d⟩ <;> rfl

/-- Behaviour of the reconnection loop on an oracle of k failed attempts,
optionally followed by a success: still running after the failures, and a
connected result with the subscribe-subscribe-status calls and 5000 ms of
sleep per failure once an attempt succeeds. -/
theorem connectToMQTT_run (s : DeviceState) (h : s.mqttConnected = false) :
    ∀ k : ℕ,
      connectToMQTT s (List.replicate k false) = none ∧
      ∀ rest : List Bool,
        connectToMQTT s (List.replicate k false ++ true :: rest) =
          some ({ s with mqttConnected := true },
            [Msg.subscribe (configTopic s.deviceId),
             Msg.subscribe (commandTopic s.deviceId)]
              ++ publishDeviceStatus { s with mqttConnected := true },
            MQTT_RECONNECT_DELAY * k) := by
  intro k
  induction k with
  | zero =>
    refine ⟨by simp [connectToMQTT, h], fun rest => ?_⟩
    simp [connectToMQTT, h]
  | succ n ih =>
    refine ⟨?_, fun rest => ?_⟩
    · rw [List.replicate_succ]
      simp [connectToMQTT, h, ih.1, addDelay]
    · rw [List.replicate_succ, List.cons_append]
      simp [connectToMQTT, h, ih.2 rest, addDelay, Nat.mul_succ]
      ring

/-- Every transport call the reconnection loop makes from a state with
ready sensors is either a subscribe or an "online" status publish. -/
theorem connectToMQTT_statusOnline (s : DeviceState)
    (hs : s.sensorsReady = true) :
    ∀ outcomes : List Bool,
      List.all (msgsOf (connectToMQTT s outcomes)) statusOnline = true := by
  intro outcomes
  induction outcomes with
  | nil =>
    rcases Bool.eq_false_or_eq_true s.mqttConnected with hm | hm <;>
      simp [connectToMQTT, msgsOf, hm]
  | cons ok rest ih =>
    rcases Bool.eq_false_or_eq_true s.mqttConnected with hm | hm
    · simp [connectToMQTT, msgsOf, hm]
    · rcases Bool.eq_false_or_eq_true ok with ho | ho
      · simp [connectToMQTT, msgsOf, hm, ho, publishDeviceStatus, statusOnline,
          hs]
      · have hmm : msgsOf (connectToMQTT s (ok :: rest)) =
            msgsOf (connectToMQTT s rest) := by
          simp [connectToMQTT, hm, ho, msgsOf_addDelay]
        rw [hmm]
        exact ih

/-! Claim theorems. -/

/-- C9: a measurement request (timer tick, button press, or `measure_now`
command) issued while the reentrancy flag indicates a measurement in
progress is a no-op: it returns immediately, leaves the whole device state
(including the last known reading) unchanged, and produces no publish. -/
theorem C9_reentrancy_noop (s : DeviceState) (inp : SensorInput)
    (h : s.measurementInProgress = true) :
    takeMeasurement s inp = (s, []) ∧
    handleCommand s inp "measure_now" = (s, [], false) := by
  have ht := takeMeasurement_inProgress s inp h
  exact ⟨ht, by simp [handleCommand, ht]⟩

/-- Witness for C9 at a concrete in-progress state and in-range input. -/
theorem C9_reentrancy_noop_witness :
    takeMeasurement w9State w9Input = (w9State, []) ∧
    handleCommand w9State w9Input "measure_now" = (w9State, [], false) :=
  C9_reentrancy_noop w9State w9Input rfl

/-- C3 as stated fails on the code: with the contact channel exactly at
20 °C (inside the closed interval [20, 50]) and the infrared channel in
range, the selected measurement type is "infrared", not "contact", and the
primary temperature is the infrared value, not the contact value. -/
theorem C3_counterexample :
    (20 ≤ c3Input.contactTemp ∧ c3Input.contactTemp ≤ 50) ∧
    (20 ≤ c3Input.infraredTemp ∧ c3Input.infraredTemp ≤ 50) ∧
    (buildReading c3Input).measurementType = "infrared" ∧
    primaryTemp (buildReading c3Input) ≠ c3Input.contactTemp := by
  decide

/-- C3 amended: the selection rule uses strict bounds.  If contactTemp is
strictly between 20 and 50 °C the measurement type is "contact" and the
primary temperature equals contactTemp (regardless of infraredTemp); else if
infraredTemp is strictly between 20 and 50 °C the type is "infrared"; else
the type stays "combined"; in every non-contact case the primary temperature
is the infrared value. -/
theorem C3_selection_amended (inp : SensorInput) :
    (buildReading inp).measurementType =
      (if 20 < inp.contactTemp ∧ inp.contactTemp < 50 then "contact"
       else if 20 < inp.infraredTemp ∧ inp.infraredTemp < 50 then "infrared"
       else "combined") ∧
    primaryTemp (buildReading inp) =
      (if 20 < inp.contactTemp ∧ inp.contactTemp < 50 then inp.contactTemp
       else inp.infraredTemp) :=
  ⟨buildReading_type inp, primaryTemp_buildReading inp⟩

/-- C2: the reading's validity flag is true iff the infrared channel is
within [20, 50] °C, independently of the contact channel value; and no
reading payload whose validity flag is false is ever handed to the
transport. -/
theorem C2_validity (s : DeviceState) (inp : SensorInput) (c : ℚ) :
    ((buildReading inp).isValid = true ↔
      20 ≤ inp.infraredTemp ∧ inp.infraredTemp ≤ 50) ∧
    (buildReading { inp with contactTemp := c }).isValid =
      (buildReading inp).isValid ∧
    List.all (takeMeasurement s inp).2 readingPayloadValid = true := by
  refine ⟨buildReading_isValid inp, ?_, ?_⟩
  · by_cases hir : 20 ≤ inp.infraredTemp ∧ inp.infraredTemp ≤ 50
    · have h1 : (buildReading { inp with contactTemp := c }).isValid = true :=
        (buildReading_isValid _).mpr hir
      have h2 : (buildReading inp).isValid = true :=
        (buildReading_isValid _).mpr hir
      rw [h1, h2]
    · rcases Bool.eq_false_or_eq_true
          (buildReading { inp with contactTemp := c }).isValid with h1 | h1
      · exact absurd ((buildReading_isValid { inp with contactTemp := c }).mp h1)
          hir
      · rcases Bool.eq_false_or_eq_true (buildReading inp).isValid with h2 | h2
        · exact absurd ((buildReading_isValid inp).mp h2) hir
        · rw [h1, h2]
  · rcases Bool.eq_false_or_eq_true s.measurementInProgress with hp | hp
    · rw [takeMeasurement_inProgress s inp hp]
      rfl
    · by_cases hv : (buildReading inp).isValid
      · rw [takeMeasurement_valid s inp hp hv]
        rw [List.all_append]
        have ha : List.all
            (checkFeverAlert s.deviceId inp.epochTime
              (primaryTemp (buildReading inp))) readingPayloadValid = true := by
          unfold checkFeverAlert
          split_ifs <;> simp [readingPayloadValid]
        have hb : List.all
            (publishTemperatureData { s with lastReading := buildReading inp }
              (buildReading inp)) readingPayloadValid = true := by
          unfold publishTemperatureData
          split_ifs <;> simp [readingPayloadValid, hv]
        rw [ha, hb]
        rfl
      · rw [takeMeasurement_invalid s inp (Bool.not_eq_true _ ▸ hv)]
        rfl

/-- C1: for the primary temperature t selected by a completed valid
measurement: if t < 37.5 no alert is handed to the transport and the
display classifies the reading as Normal; if 37.5 ≤ t < 39 exactly one
fever alert is published with severity "moderate"; if t ≥ 39 the alert is
published with severity "high". -/
theorem C1_fever_rule (s : DeviceState) (inp : SensorInput)
    (hp : s.measurementInProgress = false)
    (hv : (buildReading inp).isValid = true) :
    List.filter isAlertMsg (takeMeasurement s inp).2 =
      (if primaryTemp (buildReading inp) < FEVER_THRESHOLD then []
       else
         [Msg.publish (alertsTopic s.deviceId)
           (Payload.alert s.deviceId "fever_detected"
             (primaryTemp (buildReading inp))
             (if primaryTemp (buildReading inp) ≥ HIGH_FEVER_THRESHOLD then
                "high"
              else "moderate")
             inp.epochTime)]) ∧
    displayFeverText ((takeMeasurement s inp).1).lastReading =
      (if primaryTemp (buildReading inp) < FEVER_THRESHOLD then "Normal"
       else "FEVER DETECTED!") := by
  rw [takeMeasurement_valid s inp hp hv]
  constructor
  · rw [List.filter_append]
    have hpub : List.filter isAlertMsg
        (publishTemperatureData { s with lastReading := buildReading inp }
          (buildReading inp)) = [] := by
      unfold publishTemperatureData
      split_ifs <;> simp [isAlertMsg]
    rw [hpub, List.append_nil]
    by_cases ht : primaryTemp (buildReading inp) < FEVER_THRESHOLD
    · rw [checkFeverAlert_of_lt _ _ _ ht, if_pos ht]
      rfl
    · rw [checkFeverAlert_of_ge _ _ _ (not_lt.mp ht), if_neg ht]
      simp [isAlertMsg]
  · show displayFeverText (buildReading inp) = _
    unfold displayFeverText
    simp only [hv, if_true]
    split_ifs with h1 h2 <;> first | rfl | linarith

/-- Witness for C1 at the spec scenario infrared 38.2 °C, contact out of
range: one "moderate" alert and a fever display. -/
theorem C1_fever_rule_witness :
    List.filter isAlertMsg (takeMeasurement baseState w1Input).2 =
      (if primaryTemp (buildReading w1Input) < FEVER_THRESHOLD then []
       else
         [Msg.publish (alertsTopic baseState.deviceId)
           (Payload.alert baseState.deviceId "fever_detected"
             (primaryTemp (buildReading w1Input))
             (if primaryTemp (buildReading w1Input) ≥ HIGH_FEVER_THRESHOLD then
                "high"
              else "moderate")
             w1Input.epochTime)]) ∧
    displayFeverText ((takeMeasurement baseState w1Input).1).lastReading =
      (if primaryTemp (buildReading w1Input) < FEVER_THRESHOLD then "Normal"
       else "FEVER DETECTED!") :=
  C1_fever_rule baseState w1Input rfl (by decide)

/-- C4 as stated fails on the code: a reading that fails validation is not
recorded as the last known reading — the previous last known reading is
kept unchanged. -/
theorem C4_counterexample :
    (buildReading c4Input).isValid = false ∧
    (takeMeasurement baseState c4Input).1.lastReading ≠ buildReading c4Input ∧
    (takeMeasurement baseState c4Input).1.lastReading =
      baseState.lastReading := by
  decide

/-- C4 amended: a cycle completing with failed validation leaves the last
known reading unchanged (the invalid reading is discarded, not recorded)
and neither the classifier nor the publisher runs; a cycle completing with
a valid reading replaces the last known reading and feeds the classifier
and then the publisher. -/
theorem C4_amended_completion (s : DeviceState) (inp : SensorInput)
    (hp : s.measurementInProgress = false) :
    (takeMeasurement s inp).1.lastReading =
      (if (buildReading inp).isValid then buildReading inp
       else s.lastReading) ∧
    (takeMeasurement s inp).2 =
      (if (buildReading inp).isValid then
         checkFeverAlert s.deviceId inp.epochTime
             (primaryTemp (buildReading inp))
           ++ publishTemperatureData
               { s with lastReading := buildReading inp } (buildReading inp)
       else []) := by
  rcases Bool.eq_false_or_eq_true (buildReading inp).isValid with hv | hv
  · rw [takeMeasurement_valid s inp hp hv]
    simp [hv]
  · rw [takeMeasurement_invalid s inp hv]
    simp [hv]

/-- Witness for C4 amended at the concrete invalid-infrared input. -/
theorem C4_amended_completion_witness :
    (takeMeasurement baseState c4Input).1.lastReading =
      (if (buildReading c4Input).isValid then buildReading c4Input
       else baseState.lastReading) ∧
    (takeMeasurement baseState c4Input).2 =
      (if (buildReading c4Input).isValid then
         checkFeverAlert baseState.deviceId c4Input.epochTime
             (primaryTemp (buildReading c4Input))
           ++ publishTemperatureData
               { baseState with lastReading := buildReading c4Input }
               (buildReading c4Input)
       else []) :=
  C4_amended_completion baseState c4Input rfl

/-- C5 as stated fails on the code: in a disconnected state, a completed
valid high-fever measurement still hands an alert publish to the transport,
because `checkFeverAlert` performs no connectivity check before calling
publish. -/
theorem C5_counterexample :
    c5State.mqttConnected = false ∧
    (takeMeasurement c5State c5Input).2 =
      [Msg.publish (alertsTopic "DEV")
        (Payload.alert "DEV" "fever_detected" c5Input.infraredTemp "high"
          1000)] := by
  decide

/-- C5 amended: the reading and status publishers check the broker session
first and, when it is not connected, drop their message with no transport
call, no queue, no retry and no error; the alert publisher performs no such
check — it hands the alert to the transport for every fever temperature
regardless of the session state. -/
theorem C5_amended_gating (s : DeviceState) (r : TemperatureReading)
    (devId : String) (ts : ℕ) (t : ℚ) (hm : s.mqttConnected = false)
    (ht : FEVER_THRESHOLD ≤ t) :
    publishTemperatureData s r = [] ∧
    publishDeviceStatus s = [] ∧
    checkFeverAlert devId ts t =
      [Msg.publish (alertsTopic devId)
        (Payload.alert devId "fever_detected" t
          (if t ≥ HIGH_FEVER_THRESHOLD then "high" else "moderate") ts)] := by
  refine ⟨?_, ?_, checkFeverAlert_of_ge devId ts t ht⟩
  · simp [publishTemperatureData, hm]
  · simp [publishDeviceStatus, hm]

/-- Witness for C5 amended at a disconnected state and temperature 38 °C. -/
theorem C5_amended_gating_witness :
    publishTemperatureData c5State zeroReading = [] ∧
    publishDeviceStatus c5State = [] ∧
    checkFeverAlert "DEV" 5 38 =
      [Msg.publish (alertsTopic "DEV")
        (Payload.alert "DEV" "fever_detected" 38
          (if (38 : ℚ) ≥ HIGH_FEVER_THRESHOLD then "high" else "moderate")
          5)] :=
  C5_amended_gating c5State zeroReading "DEV" 5 38 rfl (by decide)

/-- C6: on the transition into Connected, the device subscribes to exactly
the two per-device config and commands topics and then immediately
publishes a status message; these three transport calls, in this order, are
all the procedure makes in that session. -/
theorem C6_subscribe_then_status (s : DeviceState) (k : ℕ) (rest : List Bool)
    (h : s.mqttConnected = false) :
    msgsOf (connectToMQTT s (List.replicate k false ++ true :: rest)) =
      [Msg.subscribe (configTopic s.deviceId),
       Msg.subscribe (commandTopic s.deviceId),
       Msg.publish (statusTopic s.deviceId)
         (Payload.status s.deviceId
           (if s.sensorsReady then "online" else "error"))] := by
  rw [(connectToMQTT_run s h k).2 rest]
  simp [msgsOf, publishDeviceStatus]

/-- Witness for C6 with one failed attempt before the success. -/
theorem C6_subscribe_then_status_witness :
    msgsOf (connectToMQTT c5State (List.replicate 1 false ++ true :: [])) =
      [Msg.subscribe (configTopic c5State.deviceId),
       Msg.subscribe (commandTopic c5State.deviceId),
       Msg.publish (statusTopic c5State.deviceId)
         (Payload.status c5State.deviceId
           (if c5State.sensorsReady then "online" else "error"))] :=
  C6_subscribe_then_status c5State 1 [] rfl

/-- C7 as stated fails on the code: with the network link down (the WiFi
reconnect attempt having failed) and the broker session disconnected, the
loop iteration still attempts a broker connection. -/
theorem C7_counterexample :
    c7State.wifiUp = false ∧
    ((loopConnectivity c7State false).1).wifiUp = false ∧
    TickEvent.brokerConnectAttempt ∈ (loopConnectivity c7State false).2 := by
  decide

/-- C7 amended: a loop iteration attempts a broker connection exactly when
the client session is disconnected, regardless of the network link state;
no gate on the link state exists. -/
theorem C7_amended_attempts (s : DeviceState) (w : Bool) :
    TickEvent.brokerConnectAttempt ∈ (loopConnectivity s w).2 ↔
      s.mqttConnected = false := by
  unfold loopConnectivity
  rcases Bool.eq_false_or_eq_true s.mqttConnected with hm | hm <;>
    rcases Bool.eq_false_or_eq_true s.wifiUp with hw | hw <;>
      simp [hm, hw]

/-- C8: the broker reconnection procedure has no attempt cap: after any
number k of failed handshakes it is still running with no result, each
failure adding a fixed 5000 ms sleep before the next attempt; it returns
only once the session is connected, namely on the first successful
attempt. -/
theorem C8_unbounded_retry (s : DeviceState) (k : ℕ) (rest : List Bool)
    (h : s.mqttConnected = false) :
    connectToMQTT s (List.replicate k false) = none ∧
    connectToMQTT s (List.replicate k false ++ true :: rest) =
      some ({ s with mqttConnected := true },
        [Msg.subscribe (configTopic s.deviceId),
         Msg.subscribe (commandTopic s.deviceId)]
          ++ publishDeviceStatus { s with mqttConnected := true },
        MQTT_RECONNECT_DELAY * k) :=
  ⟨(connectToMQTT_run s h k).1, (connectToMQTT_run s h k).2 rest⟩

/-- Witness for C8 with two failed attempts, then a success. -/
theorem C8_unbounded_retry_witness :
    connectToMQTT c5State (List.replicate 2 false) = none ∧
    connectToMQTT c5State (List.replicate 2 false ++ true :: []) =
      some ({ c5State with mqttConnected := true },
        [Msg.subscribe (configTopic c5State.deviceId),
         Msg.subscribe (commandTopic c5State.deviceId)]
          ++ publishDeviceStatus { c5State with mqttConnected := true },
        MQTT_RECONNECT_DELAY * 2) :=
  C8_unbounded_retry c5State 2 [] rfl

/-- C10: sensor initialization always ends with sensorsReady = true — even
when the infrared sensor fails to initialize, because the final assignment
unconditionally overwrites the failure value — the flag is preserved by
measurement cycles, and from a state with ready sensors every status
message handed to the transport carries "online"; the "error" status is
unreachable. -/
theorem C10_sensorsReady_online (s s2 : DeviceState) (mlxOk : Bool)
    (cnt : ℕ) (inp : SensorInput) (outcomes : List Bool)
    (h2 : s2.sensorsReady = true) :
    (setupSensors s mlxOk cnt).sensorsReady = true ∧
    (takeMeasurement s2 inp).1.sensorsReady = true ∧
    List.all (publishDeviceStatus s2) statusOnline = true ∧
    List.all (msgsOf (connectToMQTT s2 outcomes)) statusOnline = true := by
  refine ⟨by simp [setupSensors], ?_, ?_,
    connectToMQTT_statusOnline s2 h2 outcomes⟩
  · rcases Bool.eq_false_or_eq_true s2.measurementInProgress with hp | hp
    · rw [takeMeasurement_inProgress s2 inp hp]
      exact h2
    · rcases Bool.eq_false_or_eq_true (buildReading inp).isValid with hv | hv
      · rw [takeMeasurement_valid s2 inp hp hv]
        exact h2
      · rw [takeMeasurement_invalid s2 inp hv]
        exact h2
  · unfold publishDeviceStatus
    split_ifs <;> simp [statusOnline, h2]

/-- Witness for C10 with a failed infrared-sensor initialization and a
concrete oracle for the reconnection loop. -/
theorem C10_sensorsReady_online_witness :
    (setupSensors baseState false 0).sensorsReady = true ∧
    (takeMeasurement baseState w9Input).1.sensorsReady = true ∧
    List.all (publishDeviceStatus baseState) statusOnline = true ∧
    List.all (msgsOf (connectToMQTT baseState [false, true])) statusOnline =
      true :=
  C10_sensorsReady_online baseState baseState false 0 w9Input [false, true]
    rfl

end BotCareU
